import Mathlib

/-!
Shallow embedding of the weather-gpt-app request handlers.

Sources embedded:
* `src/unnamed/part_000` — the weather endpoint with zip support (`POST /api/weather`),
  embedded in namespace `Weather`;
* `src/unnamed/part_001` — the sibling weather endpoint without zip support,
  embedded in namespace `Weather2`;
* `src/src/app/api/suggest/route.ts` — the suggestion endpoint (`GET /api/suggest`),
  embedded in namespace `Suggest`;
* `src/src/app/page.tsx` (`handleSubmit`, free-text branch) — the client-side
  location parsing, embedded in namespace `Page`.

JavaScript strings are modelled as Lean `String`; `toLowerCase`/`toUpperCase`
are modelled with the ASCII case mapping; `\s` is modelled by the JS
whitespace class; timestamps are `Nat` milliseconds (the JS `now - ts < TTL`
comparison agrees with truncated `Nat` subtraction whenever `ts ≤ now`, and
both sides treat a future timestamp as fresh).  The single upstream `fetch`
of each handler is modelled by an oracle argument giving its outcome, and
each handler returns the number of upstream calls it performed.
-/

/-- ASCII lower-casing of one character (model of JS `toLowerCase` on ASCII). -/
def lowerChar (c : Char) : Char :=
  if 'A' ≤ c ∧ c ≤ 'Z' then Char.ofNat (c.toNat + 32) else c

/-- ASCII upper-casing of one character (model of JS `toUpperCase` on ASCII). -/
def upperChar (c : Char) : Char :=
  if 'a' ≤ c ∧ c ≤ 'z' then Char.ofNat (c.toNat - 32) else c

/-- Model of JS `String.prototype.toLowerCase` (ASCII case mapping). -/
def toLowerStr (s : String) : String := ⟨s.data.map lowerChar⟩

/-- Model of JS `String.prototype.toUpperCase` (ASCII case mapping). -/
def toUpperStr (s : String) : String := ⟨s.data.map upperChar⟩

/-- The JS whitespace class `\s` (WhiteSpace ∪ LineTerminator). -/
def jsSpace (c : Char) : Bool :=
  c = ' ' || c = '\t' || c = '\n' || c = '\r' || c = '\x0b' || c = '\x0c' ||
  c = ' ' || c = ' ' ||
  (0x2000 ≤ c.toNat && c.toNat ≤ 0x200A) ||
  c = ' ' || c = ' ' || c = ' ' || c = ' ' ||
  c = '　' || c = '﻿'

/-- Model of JS `String.prototype.trim`: strip leading and trailing whitespace. -/
def jsTrim (s : String) : String :=
  ⟨((s.data.dropWhile jsSpace).reverse.dropWhile jsSpace).reverse⟩

/-- A decimal digit, the JS regex class `\d`. -/
def isDigitCh (c : Char) : Bool := '0' ≤ c && c ≤ '9'

/-- An ASCII uppercase letter, the JS regex class `[A-Z]`. -/
def isUpperAlpha (c : Char) : Bool := 'A' ≤ c && c ≤ 'Z'

/-- The JS regex test `/^\d{5}$/`: exactly five decimal digits. -/
def isZip5 (s : String) : Bool := s.data.length = 5 && s.data.all isDigitCh

/-- Truthiness of an optional JS string field: present and nonempty. -/
def truthy : Option String → Bool
  | none => false
  | some s => !(s = "")

/-- The `US_STATES` set shared by both weather endpoints: the 50 state codes
plus DC. -/
def US_STATES : List String :=
  ["AL", "AK", "AZ", "AR", "CA", "CO", "CT", "DE", "FL", "GA",
   "HI", "ID", "IL", "IN", "IA", "KS", "KY", "LA", "ME", "MD",
   "MA", "MI", "MN", "MS", "MO", "MT", "NE", "NV", "NH", "NJ",
   "NM", "NY", "NC", "ND", "OH", "OK", "OR", "PA", "RI", "SC",
   "SD", "TN", "TX", "UT", "VT", "VA", "WA", "WV", "WI", "WY", "DC"]

/-- A JSON request body for the weather endpoints, restricted to the three
string fields the handlers inspect; `none` is an absent field. -/
structure Body where
  city : Option String
  state : Option String
  zip : Option String
deriving Repr, DecidableEq

/-- Outcome of the one upstream `fetch` a weather handler may perform.
`ok content` is a 2xx response whose extracted
`data.choices?.[0]?.message?.content` is `content` (with an absent field
modelled as `""`, which JS treats identically: both are falsy);
`httpError s` is a non-2xx response with status `s`; `timeout` is the
`AbortSignal.timeout` DOMException; `netError` is any other thrown error. -/
inductive Upstream where
  | ok (content : String)
  | httpError (status : Nat)
  | timeout
  | netError
deriving Repr, DecidableEq

/-- An HTTP response produced by a weather handler: status code plus the JSON
fields it may set. -/
structure WResp where
  status : Nat
  report : Option String := none
  cached : Option Bool := none
  error : Option String := none
deriving Repr, DecidableEq

/-- The process-local cache: key ↦ (data, timestamp in ms). -/
def WCache : Type := String → Option (String × Nat)

/-- Model of `cache.get key`. -/
def wcacheGet (c : WCache) (k : String) : Option (String × Nat) := c k

/-- Model of `cache.set key (data, timestamp)`. -/
def wcacheSet (c : WCache) (k : String) (v : String × Nat) : WCache :=
  fun k2 => if k2 = k then some v else c k2

/-- The empty cache map. -/
def wcacheEmpty : WCache := fun _ => none

/-- The TTL check done on every cache read (`cached && Date.now() -
cached.timestamp < CACHE_TTL` in all three handlers): the stored payload when
the entry exists and is younger than `ttl`, otherwise `none`. -/
def cacheLookup {α : Type} (entry : Option (α × Nat)) (now ttl : Nat) : Option α :=
  match entry with
  | some (data, ts) => if now - ts < ttl then some data else none
  | none => none

/-- The credential check of both weather endpoints and the suggestion
endpoint: `!apiKey || apiKey === "your_openrouter_api_key_here"` fails. -/
def validKey : Option String → Bool
  | none => false
  | some s => !(s = "" || s = "your_openrouter_api_key_here")

namespace Weather

/-- The constant `CACHE_TTL = 15 * 60 * 1000` of `src/unnamed/part_000`. -/
def CACHE_TTL : Nat := 15 * 60 * 1000

/-- The zip-only branch of `src/unnamed/part_000` lines 36–40:
`zipOnlySchema.parse` (a 5-digit zip) and the derived `location` and
`cacheKey`; `none` is a `ZodError`. -/
def parseZipOnly (z : Option String) : Option (String × String) :=
  match z with
  | some zz => if isZip5 zz then some ("zip code " ++ zz, "zip-" ++ zz) else none
  | none => none

/-- The city+state branch of `src/unnamed/part_000` lines 41–46:
`cityStateSchema.parse` (city of length 1–100, state upper-cased and checked
against `US_STATES`, zip an arbitrary optional string) and the derived
`location` and `cacheKey`; `none` is a `ZodError`. -/
def parseCityState (c s : String) (z : Option String) : Option (String × String) :=
  if 1 ≤ c.length && c.length ≤ 100 then
    if toUpperStr s ∈ US_STATES then
      some ((if truthy z then c ++ ", " ++ toUpperStr s ++ " " ++ z.getD ""
             else c ++ ", " ++ toUpperStr s),
            toLowerStr c ++ "-" ++ toUpperStr s ++
              (if truthy z then "-" ++ z.getD "" else ""))
    else none
  else none

/-- The body validation of `src/unnamed/part_000` lines 36–46: zip-only mode
when `body.zip && !body.city`, otherwise `cityStateSchema`; returns the
`location` string and the `cacheKey`, or `none` for a `ZodError`. -/
def parseBody (b : Body) : Option (String × String) :=
  if truthy b.zip && !truthy b.city then parseZipOnly b.zip
  else
    match b.city, b.state with
    | some c, some s => parseCityState c s b.zip
    | _, _ => none

/-- The 400 response of the `ZodError` catch branch. -/
def valErrResp : WResp :=
  { status := 400,
    error := some "Invalid input. Please provide a valid city/state or a 5-digit US zip code." }

/-- The 500 response when the credential is missing or the placeholder. -/
def configErrResp : WResp :=
  { status := 500,
    error := some "OpenRouter API key not configured. Add OPENROUTER_API_KEY to your environment variables." }

/-- The 502 response for a non-2xx upstream status. -/
def upstreamErrResp (s : Nat) : WResp :=
  { status := 502,
    error := some ("Weather service returned an error (" ++ toString s ++ "). Please try again.") }

/-- The 502 response when the 2xx upstream response has no extractable text. -/
def noDataResp : WResp :=
  { status := 502, error := some "No weather data received. Please try again." }

/-- The 504 response of the timeout catch branch. -/
def timeoutResp : WResp :=
  { status := 504,
    error := some "Request timed out. The weather service is taking too long to respond." }

/-- The generic 500 response of the final catch branch. -/
def genericErrResp : WResp :=
  { status := 500, error := some "Something went wrong. Please try again." }

/-- Lines 48–136 of `src/unnamed/part_000`, after the body validation: cache
lookup with the 15-minute TTL, credential check, the single upstream fetch,
and the cache write on success.  Returns the response, the cache after the
request, and the number of upstream calls performed. -/
def afterParse (key : String) (cache : WCache) (now : Nat)
    (apiKey : Option String) (up : Upstream) : WResp × WCache × Nat :=
  match cacheLookup (wcacheGet cache key) now CACHE_TTL with
  | some data => ({ status := 200, report := some data, cached := some true }, cache, 0)
  | none =>
    if validKey apiKey then
      match up with
      | .ok content =>
          if content = "" then (noDataResp, cache, 1)
          else ({ status := 200, report := some content, cached := some false },
                wcacheSet cache key (content, now), 1)
      | .httpError s => (upstreamErrResp s, cache, 1)
      | .timeout => (timeoutResp, cache, 1)
      | .netError => (genericErrResp, cache, 1)
    else (configErrResp, cache, 0)

/-- The `POST` handler of `src/unnamed/part_000`.  `body` is the parsed JSON
request body (`none` when `request.json()` throws), `now` is `Date.now()`,
`apiKey` is `process.env.OPENROUTER_API_KEY`, and `up` is the outcome the one
possible upstream fetch would have. -/
def POST (body : Option Body) (cache : WCache) (now : Nat)
    (apiKey : Option String) (up : Upstream) : WResp × WCache × Nat :=
  match body with
  | none => (genericErrResp, cache, 0)
  | some b =>
    match parseBody b with
    | none => (valErrResp, cache, 0)
    | some (_loc, key) => afterParse key cache now apiKey up

end Weather

namespace Weather2

/-- The constant `CACHE_TTL = 15 * 60 * 1000` of `src/unnamed/part_001`. -/
def CACHE_TTL : Nat := 15 * 60 * 1000

/-- The body validation of `src/unnamed/part_001` lines 26–29: `requestSchema`
(city and state only, no zip field); returns the `cacheKey`, or `none` for a
`ZodError`. -/
def parseBody (b : Body) : Option String :=
  match b.city, b.state with
  | some c, some s =>
      if 1 ≤ c.length && c.length ≤ 100 then
        if toUpperStr s ∈ US_STATES then some (toLowerStr c ++ "-" ++ toUpperStr s)
        else none
      else none
  | _, _ => none

/-- The 400 response of the `ZodError` catch branch of `part_001` (its message
differs from the one in `part_000`). -/
def valErrResp : WResp :=
  { status := 400,
    error := some "Invalid input. Please provide a valid city name and 2-letter state code." }

/-- Lines 30–99 of `src/unnamed/part_001`, after the body validation: cache
lookup with the 15-minute TTL, credential check, the single upstream fetch,
and the cache write on success (the error-response texts of these lines are
identical to those of `part_000`). -/
def afterParse (key : String) (cache : WCache) (now : Nat)
    (apiKey : Option String) (up : Upstream) : WResp × WCache × Nat :=
  match cacheLookup (wcacheGet cache key) now CACHE_TTL with
  | some data => ({ status := 200, report := some data, cached := some true }, cache, 0)
  | none =>
    if validKey apiKey then
      match up with
      | .ok content =>
          if content = "" then (Weather.noDataResp, cache, 1)
          else ({ status := 200, report := some content, cached := some false },
                wcacheSet cache key (content, now), 1)
      | .httpError s => (Weather.upstreamErrResp s, cache, 1)
      | .timeout => (Weather.timeoutResp, cache, 1)
      | .netError => (Weather.genericErrResp, cache, 1)
    else (Weather.configErrResp, cache, 0)

/-- The `POST` handler of `src/unnamed/part_001`, with the same modelling
conventions as `Weather.POST`. -/
def POST (body : Option Body) (cache : WCache) (now : Nat)
    (apiKey : Option String) (up : Upstream) : WResp × WCache × Nat :=
  match body with
  | none => (Weather.genericErrResp, cache, 0)
  | some b =>
    match parseBody b with
    | none => (valErrResp, cache, 0)
    | some key => afterParse key cache now apiKey up

end Weather2

namespace Suggest

/-- The constant `CACHE_TTL = 24 * 60 * 60 * 1000` of `src/src/app/api/suggest/route.ts`. -/
def CACHE_TTL : Nat := 24 * 60 * 60 * 1000

/-- The suggestion cache: key ↦ (data, timestamp in ms). -/
def SCache : Type := String → Option (List String × Nat)

/-- Model of `cache.get key` for the suggestion cache. -/
def scacheGet (c : SCache) (k : String) : Option (List String × Nat) := c k

/-- Model of `cache.set key (data, timestamp)` for the suggestion cache. -/
def scacheSet (c : SCache) (k : String) (v : List String × Nat) : SCache :=
  fun k2 => if k2 = k then some v else c k2

/-- The empty suggestion cache. -/
def scacheEmpty : SCache := fun _ => none

/-- Matcher for the tail `\s*[A-Z]{2}(\s+\d{5})?$` of the suggestion shape
regex: optional whitespace, two uppercase letters, optionally whitespace and
five digits, end of string.  (The greedy `\s*`/`\s+` need no backtracking
here because neither `[A-Z]` nor `\d` matches whitespace.) -/
def shapeTail (cs : List Char) : Bool :=
  match cs.dropWhile jsSpace with
  | a :: b :: rest =>
      isUpperAlpha a && isUpperAlpha b &&
      (rest = [] ||
        (decide (rest.takeWhile jsSpace ≠ []) &&
         decide ((rest.dropWhile jsSpace).length = 5) &&
         (rest.dropWhile jsSpace).all isDigitCh))
  | _ => false

/-- Helper for the suggestion shape regex `^.+,\s*[A-Z]{2}(\s+\d{5})?$`:
scans for a comma preceded by a nonempty prefix of `.`-matchable characters
(any character except a line terminator) whose tail matches `shapeTail`. -/
def shapeScan : List Char → Bool → Bool
  | [], _ => false
  | c :: rest, hasPre =>
      (c = ',' && hasPre && shapeTail rest) ||
      (!(c = '\n' || c = '\r' || c = ' ' || c = ' ') && shapeScan rest true)

/-- The JS regex test `/^.+,\s*[A-Z]{2}(\s+\d{5})?$/` used to validate each
suggestion entry ("City, ST" or "City, ST ZIP"). -/
def shapeOk (s : String) : Bool := shapeScan s.data false

/-- Outcome of the one upstream fetch the suggestion handler may perform,
including how its `content` fares under the code-fence stripping and
`JSON.parse` of lines 74–88.  `arr items` is the fully parsed case: a 2xx
response whose cleaned content parses as a JSON array, with each element
`some s` when it is the string `s` and `none` when it is a non-string value.
`noContent` is a 2xx response whose trimmed extracted content is falsy;
`parseFail` is content `JSON.parse` throws on; `nonArray` is content parsing
to a non-array value. -/
inductive SUpstream where
  | arr (items : List (Option String))
  | nonArray
  | parseFail
  | noContent
  | httpError (status : Nat)
  | timeout
  | netError
deriving Repr, DecidableEq

/-- A response of the suggestion handler: every branch of the source returns
`NextResponse.json({suggestions})` with the default status 200, recorded here
explicitly. -/
structure SResp where
  status : Nat
  suggestions : List String
deriving Repr, DecidableEq

/-- The filter-and-truncate of lines 91–95: keep the string entries matching
the shape regex, then `slice(0, 6)`. -/
def filterSuggestions (items : List (Option String)) : List String :=
  (items.filterMap (fun it => match it with
    | some s => if shapeOk s then some s else none
    | none => none)).take 6

/-- The `GET` handler of `src/src/app/api/suggest/route.ts`.  `q` is the raw
`?q=` query parameter (`none` when absent), `now` is `Date.now()`, `apiKey`
is `process.env.OPENROUTER_API_KEY`, and `up` is the outcome the one possible
upstream fetch would have.  Returns the response, the cache after the
request, and the number of upstream calls performed. -/
def GET (q : Option String) (cache : SCache) (now : Nat)
    (apiKey : Option String) (up : SUpstream) : SResp × SCache × Nat :=
  match q with
  | none => ({ status := 200, suggestions := [] }, cache, 0)
  | some raw =>
    let t := jsTrim raw
    if t.length < 2 then ({ status := 200, suggestions := [] }, cache, 0)
    else
      let key := toLowerStr t
      match cacheLookup (scacheGet cache key) now CACHE_TTL with
      | some data => ({ status := 200, suggestions := data }, cache, 0)
      | none =>
        if validKey apiKey then
          match up with
          | .arr items =>
              let suggestions := filterSuggestions items
              ({ status := 200, suggestions := suggestions },
               scacheSet cache key (suggestions, now), 1)
          | .nonArray => ({ status := 200, suggestions := [] }, cache, 1)
          | .parseFail => ({ status := 200, suggestions := [] }, cache, 1)
          | .noContent => ({ status := 200, suggestions := [] }, cache, 1)
          | .httpError _ => ({ status := 200, suggestions := [] }, cache, 1)
          | .timeout => ({ status := 200, suggestions := [] }, cache, 1)
          | .netError => ({ status := 200, suggestions := [] }, cache, 1)
        else ({ status := 200, suggestions := [] }, cache, 0)

end Suggest

namespace Page

/-- Outcome of the free-text parsing in `handleSubmit`
(`src/src/app/page.tsx` lines 342–370), starting with no selected
suggestion: which of city / state / zip end up set, or the
`InvalidLocation` error branch (line 367). -/
inductive ParseResult where
  | zipOnly (zip : String)
  | cityState (city state : String)
  | cityStateZip (city state zip : String)
  | invalid
deriving Repr, DecidableEq

/-- Model of JS `trimmed.lastIndexOf(",")`: the index of the last comma, or
`none` where JS returns `-1`. -/
def lastCommaIdx (cs : List Char) : Option Nat :=
  match cs.reverse.findIdx? (fun c => c = ',') with
  | some i => some (cs.length - 1 - i)
  | none => none

/-- The JS regex match `afterComma.match(/^([A-Z]{2})\s+(\d{5})$/)`: two
uppercase letters, whitespace, five digits; returns the two capture groups.
(The greedy `\s+` needs no backtracking because `\d` never matches
whitespace.) -/
def matchStateZip (cs : List Char) : Option (String × String) :=
  match cs with
  | a :: b :: rest =>
      if isUpperAlpha a && isUpperAlpha b then
        if decide (rest.takeWhile jsSpace ≠ []) &&
            decide ((rest.dropWhile jsSpace).length = 5) &&
            (rest.dropWhile jsSpace).all isDigitCh
        then some (⟨[a, b]⟩, ⟨rest.dropWhile jsSpace⟩)
        else none
      else none
  | _ => none

/-- The free-text branch of `handleSubmit` (no suggestion selected): trim the
query; a bare 5-digit zip wins; otherwise split at the last comma (which must
not be at position 0), try `State ZIP` after the comma, then a 2-character
state; anything else is the `InvalidLocation` error. -/
def handleSubmitParse (query : String) : ParseResult :=
  let trimmed := jsTrim query
  if isZip5 trimmed then .zipOnly trimmed
  else
    match lastCommaIdx trimmed.data with
    | some i =>
        if 0 < i then
          let c := jsTrim ⟨trimmed.data.take i⟩
          let afterComma := toUpperStr (jsTrim ⟨trimmed.data.drop (i + 1)⟩)
          match matchStateZip afterComma.data with
          | some (st, z) => .cityStateZip c st z
          | none =>
              if 0 < c.length && afterComma.length = 2 then .cityState c afterComma
              else .invalid
        else .invalid
    | none => .invalid

end Page

example : Page.handleSubmitParse "80202" = .zipOnly "80202" := by decide
example : Page.handleSubmitParse "Denver, CO" = .cityState "Denver" "CO" := by decide
example : Page.handleSubmitParse "Denver, CO 80202" =
    .cityStateZip "Denver" "CO" "80202" := by decide
example : Page.handleSubmitParse "gibberish" = .invalid := by decide
example : Page.handleSubmitParse "Denver, 12" = .cityState "Denver" "12" := by decide
example : Page.handleSubmitParse ", CO" = .invalid := by decide
example : Page.handleSubmitParse "a, b, CO" = .cityState "a, b" "CO" := by decide

example : Suggest.shapeOk "Denver, CO" = true := by decide
example : Suggest.shapeOk "Denver, CO 80202" = true := by decide
example : Suggest.shapeOk "Denver CO" = false := by decide
example : Suggest.shapeOk ", CO" = false := by decide
example : Suggest.shapeOk "a,b, CO" = true := by decide
example : Suggest.shapeOk "Denver, co" = false := by decide
example : Suggest.shapeOk "Denver, CO 8020" = false := by decide

example : Weather.parseBody ⟨some "Denver", some "co", none⟩ =
    some ("Denver, CO", "denver-CO") := by decide

example : Weather.parseBody ⟨none, none, some "80202"⟩ =
    some ("zip code 80202", "zip-80202") := by decide

example : Weather.parseBody ⟨some "Denver", some "CO", some "abc"⟩ =
    some ("Denver, CO abc", "denver-CO-abc") := by decide

example : Weather.parseBody ⟨some "Denver", some "zz", none⟩ = none := by decide

example : (Weather.POST (some ⟨some "Austin", some "tx", none⟩) wcacheEmpty 0
    (some "k") (.ok "R")).1 =
    { status := 200, report := some "R", cached := some false } := by
  decide

/-! ## Helper lemmas -/

/-- Equation for `Weather.parseBody` on a literal body, with the projections reduced. -/
theorem parseBody_mk (c s z : Option String) :
    Weather.parseBody ⟨c, s, z⟩ =
      if truthy z && !truthy c then Weather.parseZipOnly z
      else match c, s with
        | some c0, some s0 => Weather.parseCityState c0 s0 z
        | _, _ => none := rfl

theorem toLowerStr_length (s : String) : (toLowerStr s).length = s.length := by
  simp [toLowerStr]

theorem str_eq_empty_iff (s : String) : s = "" ↔ s.length = 0 := by
  cases s with
  | mk l => simp [String.ext_iff]

theorem empty_congr_of_toLower_eq {a b : String} (h : toLowerStr a = toLowerStr b) :
    (a = "") ↔ (b = "") := by
  have hl : a.length = b.length := by
    rw [← toLowerStr_length a, h, toLowerStr_length]
  rw [str_eq_empty_iff, str_eq_empty_iff, hl]

theorem cacheLookup_fresh {α : Type} (e : Option (α × Nat)) (now ttl : Nat)
    (d : α) (ts : Nat) (h : e = some (d, ts)) (hf : now - ts < ttl) :
    cacheLookup e now ttl = some d := by
  simp [cacheLookup, h, hf]

theorem cacheLookup_stale {α : Type} (e : Option (α × Nat)) (now ttl : Nat)
    (d : α) (ts : Nat) (h : e = some (d, ts)) (hf : ¬(now - ts < ttl)) :
    cacheLookup e now ttl = none := by
  simp [cacheLookup, h, hf]

theorem afterParse_hit (key : String) (cache : WCache) (now : Nat)
    (apiKey : Option String) (up : Upstream) (data : String)
    (h : cacheLookup (wcacheGet cache key) now Weather.CACHE_TTL = some data) :
    Weather.afterParse key cache now apiKey up =
      ({ status := 200, report := some data, cached := some true }, cache, 0) := by
  simp [Weather.afterParse, h]

theorem afterParse_missBadKey (key : String) (cache : WCache) (now : Nat)
    (apiKey : Option String) (up : Upstream)
    (h : cacheLookup (wcacheGet cache key) now Weather.CACHE_TTL = none)
    (hk : validKey apiKey = false) :
    Weather.afterParse key cache now apiKey up = (Weather.configErrResp, cache, 0) := by
  simp [Weather.afterParse, h, hk]

theorem afterParse_missOk (key : String) (cache : WCache) (now : Nat)
    (apiKey : Option String) (content : String)
    (h : cacheLookup (wcacheGet cache key) now Weather.CACHE_TTL = none)
    (hk : validKey apiKey = true) (hc : ¬(content = "")) :
    Weather.afterParse key cache now apiKey (.ok content) =
      ({ status := 200, report := some content, cached := some false },
       wcacheSet cache key (content, now), 1) := by
  simp [Weather.afterParse, h, hk, hc]

theorem afterParse_missOkEmpty (key : String) (cache : WCache) (now : Nat)
    (apiKey : Option String)
    (h : cacheLookup (wcacheGet cache key) now Weather.CACHE_TTL = none)
    (hk : validKey apiKey = true) :
    Weather.afterParse key cache now apiKey (.ok "") = (Weather.noDataResp, cache, 1) := by
  simp [Weather.afterParse, h, hk]

theorem afterParse_missHttp (key : String) (cache : WCache) (now : Nat)
    (apiKey : Option String) (s : Nat)
    (h : cacheLookup (wcacheGet cache key) now Weather.CACHE_TTL = none)
    (hk : validKey apiKey = true) :
    Weather.afterParse key cache now apiKey (.httpError s) =
      (Weather.upstreamErrResp s, cache, 1) := by
  simp [Weather.afterParse, h, hk]

theorem afterParse_missTimeout (key : String) (cache : WCache) (now : Nat)
    (apiKey : Option String)
    (h : cacheLookup (wcacheGet cache key) now Weather.CACHE_TTL = none)
    (hk : validKey apiKey = true) :
    Weather.afterParse key cache now apiKey .timeout = (Weather.timeoutResp, cache, 1) := by
  simp [Weather.afterParse, h, hk]

theorem afterParse_missNet (key : String) (cache : WCache) (now : Nat)
    (apiKey : Option String)
    (h : cacheLookup (wcacheGet cache key) now Weather.CACHE_TTL = none)
    (hk : validKey apiKey = true) :
    Weather.afterParse key cache now apiKey .netError = (Weather.genericErrResp, cache, 1) := by
  simp [Weather.afterParse, h, hk]

theorem afterParse_missCalls (key : String) (cache : WCache) (now : Nat)
    (apiKey : Option String) (up : Upstream)
    (h : cacheLookup (wcacheGet cache key) now Weather.CACHE_TTL = none)
    (hk : validKey apiKey = true) :
    (Weather.afterParse key cache now apiKey up).2.2 = 1 := by
  cases up with
  | ok content =>
    by_cases hc : content = ""
    · subst hc
      rw [afterParse_missOkEmpty key cache now apiKey h hk]
    · rw [afterParse_missOk key cache now apiKey content h hk hc]
  | httpError s => rw [afterParse_missHttp key cache now apiKey s h hk]
  | timeout => rw [afterParse_missTimeout key cache now apiKey h hk]
  | netError => rw [afterParse_missNet key cache now apiKey h hk]

theorem POST_parsed (b : Body) (l key : String) (cache : WCache) (now : Nat)
    (apiKey : Option String) (up : Upstream)
    (hp : Weather.parseBody b = some (l, key)) :
    Weather.POST (some b) cache now apiKey up =
      Weather.afterParse key cache now apiKey up := by
  simp [Weather.POST, hp]

theorem GET_short (raw : String) (cache : Suggest.SCache) (now : Nat)
    (apiKey : Option String) (up : Suggest.SUpstream)
    (h : (jsTrim raw).length < 2) :
    Suggest.GET (some raw) cache now apiKey up =
      ({ status := 200, suggestions := [] }, cache, 0) := by
  simp [Suggest.GET, h]

theorem GET_hit (raw : String) (cache : Suggest.SCache) (now : Nat)
    (apiKey : Option String) (up : Suggest.SUpstream) (data : List String)
    (h2 : ¬((jsTrim raw).length < 2))
    (h : cacheLookup (Suggest.scacheGet cache (toLowerStr (jsTrim raw))) now
      Suggest.CACHE_TTL = some data) :
    Suggest.GET (some raw) cache now apiKey up =
      ({ status := 200, suggestions := data }, cache, 0) := by
  simp [Suggest.GET, h2, h]

theorem GET_missBadKey (raw : String) (cache : Suggest.SCache) (now : Nat)
    (apiKey : Option String) (up : Suggest.SUpstream)
    (h2 : ¬((jsTrim raw).length < 2))
    (h : cacheLookup (Suggest.scacheGet cache (toLowerStr (jsTrim raw))) now
      Suggest.CACHE_TTL = none)
    (hk : validKey apiKey = false) :
    Suggest.GET (some raw) cache now apiKey up =
      ({ status := 200, suggestions := [] }, cache, 0) := by
  simp [Suggest.GET, h2, h, hk]

theorem GET_missArr (raw : String) (cache : Suggest.SCache) (now : Nat)
    (apiKey : Option String) (items : List (Option String))
    (h2 : ¬((jsTrim raw).length < 2))
    (h : cacheLookup (Suggest.scacheGet cache (toLowerStr (jsTrim raw))) now
      Suggest.CACHE_TTL = none)
    (hk : validKey apiKey = true) :
    Suggest.GET (some raw) cache now apiKey (.arr items) =
      ({ status := 200, suggestions := Suggest.filterSuggestions items },
       Suggest.scacheSet cache (toLowerStr (jsTrim raw))
         (Suggest.filterSuggestions items, now), 1) := by
  simp [Suggest.GET, h2, h, hk]

theorem GET_missFailure (raw : String) (cache : Suggest.SCache) (now : Nat)
    (apiKey : Option String) (up : Suggest.SUpstream)
    (h2 : ¬((jsTrim raw).length < 2))
    (h : cacheLookup (Suggest.scacheGet cache (toLowerStr (jsTrim raw))) now
      Suggest.CACHE_TTL = none)
    (hk : validKey apiKey = true)
    (hup : ∀ items, up ≠ .arr items) :
    Suggest.GET (some raw) cache now apiKey up =
      ({ status := 200, suggestions := [] }, cache, 1) := by
  cases up with
  | arr items => exact absurd rfl (hup items)
  | nonArray => simp [Suggest.GET, h2, h, hk]
  | parseFail => simp [Suggest.GET, h2, h, hk]
  | noContent => simp [Suggest.GET, h2, h, hk]
  | httpError s => simp [Suggest.GET, h2, h, hk]
  | timeout => simp [Suggest.GET, h2, h, hk]
  | netError => simp [Suggest.GET, h2, h, hk]

theorem GET_missCalls (raw : String) (cache : Suggest.SCache) (now : Nat)
    (apiKey : Option String) (up : Suggest.SUpstream)
    (h2 : ¬((jsTrim raw).length < 2))
    (h : cacheLookup (Suggest.scacheGet cache (toLowerStr (jsTrim raw))) now
      Suggest.CACHE_TTL = none)
    (hk : validKey apiKey = true) :
    (Suggest.GET (some raw) cache now apiKey up).2.2 = 1 := by
  cases up with
  | arr items => rw [GET_missArr raw cache now apiKey items h2 h hk]
  | nonArray => rw [GET_missFailure raw cache now apiKey _ h2 h hk (by intro i hx; cases hx)]
  | parseFail => rw [GET_missFailure raw cache now apiKey _ h2 h hk (by intro i hx; cases hx)]
  | noContent => rw [GET_missFailure raw cache now apiKey _ h2 h hk (by intro i hx; cases hx)]
  | httpError s => rw [GET_missFailure raw cache now apiKey _ h2 h hk (by intro i hx; cases hx)]
  | timeout => rw [GET_missFailure raw cache now apiKey _ h2 h hk (by intro i hx; cases hx)]
  | netError => rw [GET_missFailure raw cache now apiKey _ h2 h hk (by intro i hx; cases hx)]

/-! ## Claims -/

/-- C4: for every valid city/state pair, the weather cache key is the same
string regardless of the letter casing of the city or the state: the key is
the lower-cased city, a hyphen, the upper-cased state (and, when a zip is
given, a hyphen and the zip), so two request bodies that differ only in
casing (same lower-cased city, same upper-cased state, same zip) index the
same cache entry. -/
theorem parseCityState_congr
    (c1 s1 c2 s2 : String) (z : Option String) (l1 k1 : String)
    (hc : toLowerStr c1 = toLowerStr c2)
    (hs : toUpperStr s1 = toUpperStr s2)
    (hp : Weather.parseCityState c1 s1 z = some (l1, k1)) :
    ∃ l2, Weather.parseCityState c2 s2 z = some (l2, k1) := by
  have hlen : c1.length = c2.length := by
    rw [← toLowerStr_length c1, hc, toLowerStr_length]
  unfold Weather.parseCityState at hp ⊢
  rw [hlen, hs, hc] at hp
  split at hp
  · rename_i h1
    split at hp
    · rename_i h2
      rw [if_pos h1, if_pos h2]
      rw [Option.some.injEq, Prod.mk.injEq] at hp
      rw [hp.2]
      exact ⟨_, rfl⟩
    · exact absurd hp (by simp)
  · exact absurd hp (by simp)

/-- C4: for every valid city/state pair, the weather cache key is the same
string regardless of the letter casing of the city or the state: the key is
the lower-cased city, a hyphen, the upper-cased state (and, when a zip is
given, a hyphen and the zip), so two request bodies that differ only in
casing (same lower-cased city, same upper-cased state, same zip) index the
same cache entry. -/
theorem weather_cacheKey_case_insensitive
    (c1 s1 c2 s2 : String) (z : Option String) (l1 k1 : String)
    (hc : toLowerStr c1 = toLowerStr c2)
    (hs : toUpperStr s1 = toUpperStr s2)
    (hp : Weather.parseBody ⟨some c1, some s1, z⟩ = some (l1, k1)) :
    ∃ l2, Weather.parseBody ⟨some c2, some s2, z⟩ = some (l2, k1) := by
  have hemp : (c1 = "") ↔ (c2 = "") := empty_congr_of_toLower_eq hc
  rw [parseBody_mk] at hp ⊢
  cases hcc : truthy z && !truthy (some c1) with
  | true =>
    rw [Bool.and_eq_true] at hcc
    have he : c1 = "" := by
      have h := hcc.2
      simp only [truthy, Bool.not_not] at h
      exact of_decide_eq_true h
    have he2 : c2 = "" := hemp.mp he
    have ht2 : truthy (some c2) = false := by
      rw [he2]
      decide
    have hcond1 : (truthy z && !truthy (some c1)) = true := by
      rw [Bool.and_eq_true]
      exact hcc
    have hcond2 : (truthy z && !truthy (some c2)) = true := by
      rw [ht2, hcc.1]
      rfl
    rw [if_pos hcond1] at hp
    rw [if_pos hcond2]
    exact ⟨l1, hp⟩
  | false =>
    have hcc2 : (truthy z && !truthy (some c2)) = false := by
      cases hz : truthy z with
      | false => rfl
      | true =>
        rw [hz, Bool.true_and, Bool.not_eq_false'] at hcc
        have he : ¬(c1 = "") := by
          simp only [truthy] at hcc
          rw [Bool.not_eq_true'] at hcc
          exact of_decide_eq_false hcc
        have he2 : ¬(c2 = "") := fun h2 => he (hemp.mpr h2)
        have ht2 : truthy (some c2) = true := by
          simp only [truthy]
          rw [Bool.not_eq_true']
          exact decide_eq_false he2
        rw [ht2]
        rfl
    rw [if_neg (by rw [hcc]; exact Bool.false_ne_true)] at hp
    rw [if_neg (by rw [hcc2]; exact Bool.false_ne_true)]
    have hp2 : Weather.parseCityState c1 s1 z = some (l1, k1) := hp
    show ∃ l2, Weather.parseCityState c2 s2 z = some (l2, k1)
    exact parseCityState_congr c1 s1 c2 s2 z l1 k1 hc hs hp2

/-- Witness for C4 at a concrete input: `{city: "Denver", state: "co"}` and
`{city: "DENVER", state: "Co"}` share the cache key `denver-CO`. -/
theorem weather_cacheKey_case_insensitive_witness :
    ∃ l2, Weather.parseBody ⟨some "DENVER", some "Co", none⟩ = some (l2, "denver-CO") := by
  exact weather_cacheKey_case_insensitive "Denver" "co" "DENVER" "Co" none
    "Denver, CO" "denver-CO" (by decide) (by decide) (by decide)

/-- C1: for every weather or suggestion request, the cache lookup treats a
stored entry as present exactly when `now - entry.timestamp < TTL`, with TTL
15 minutes for the weather cache and 24 hours for the suggestion cache: a
weather request whose normalized key holds an entry younger than 15 minutes
returns the stored report with `cached = true` and performs no upstream
call, and a request whose entry is 15 minutes old or older proceeds as a
miss, performs exactly one upstream call (under a configured credential,
which the miss path requires before calling upstream), and on success
returns `cached = false`.  The last two conjuncts state the same TTL
behaviour for the suggestion cache. -/
theorem cache_ttl_semantics :
    (Weather.CACHE_TTL = 15 * 60 * 1000 ∧ Suggest.CACHE_TTL = 24 * 60 * 60 * 1000) ∧
    (∀ (d : String) (ts now ttl : Nat),
      cacheLookup (some (d, ts)) now ttl = some d ↔ now - ts < ttl) ∧
    (∀ b l key cache now apiKey up data ts,
      Weather.parseBody b = some (l, key) →
      wcacheGet cache key = some (data, ts) →
      now - ts < Weather.CACHE_TTL →
      Weather.POST (some b) cache now apiKey up =
        ({ status := 200, report := some data, cached := some true }, cache, 0)) ∧
    (∀ b l key cache now apiKey data ts,
      Weather.parseBody b = some (l, key) →
      wcacheGet cache key = some (data, ts) →
      Weather.CACHE_TTL ≤ now - ts →
      validKey apiKey = true →
      (∀ up, (Weather.POST (some b) cache now apiKey up).2.2 = 1) ∧
      (∀ content, ¬(content = "") →
        Weather.POST (some b) cache now apiKey (.ok content) =
          ({ status := 200, report := some content, cached := some false },
           wcacheSet cache key (content, now), 1))) ∧
    (∀ raw cache now apiKey up data ts,
      ¬((jsTrim raw).length < 2) →
      Suggest.scacheGet cache (toLowerStr (jsTrim raw)) = some (data, ts) →
      now - ts < Suggest.CACHE_TTL →
      Suggest.GET (some raw) cache now apiKey up =
        ({ status := 200, suggestions := data }, cache, 0)) ∧
    (∀ raw cache now apiKey up data ts,
      ¬((jsTrim raw).length < 2) →
      Suggest.scacheGet cache (toLowerStr (jsTrim raw)) = some (data, ts) →
      Suggest.CACHE_TTL ≤ now - ts →
      validKey apiKey = true →
      (Suggest.GET (some raw) cache now apiKey up).2.2 = 1) := by
  refine ⟨⟨rfl, rfl⟩, ?_, ?_, ?_, ?_, ?_⟩
  · intro d ts now ttl
    by_cases h : now - ts < ttl <;> simp [cacheLookup, h]
  · intro b l key cache now apiKey up data ts hp hc hf
    rw [POST_parsed b l key cache now apiKey up hp]
    exact afterParse_hit key cache now apiKey up data
      (cacheLookup_fresh (wcacheGet cache key) now Weather.CACHE_TTL data ts hc hf)
  · intro b l key cache now apiKey data ts hp hc hstale hk
    have hlk : cacheLookup (wcacheGet cache key) now Weather.CACHE_TTL = none :=
      cacheLookup_stale (wcacheGet cache key) now Weather.CACHE_TTL data ts hc
        (Nat.not_lt.mpr hstale)
    constructor
    · intro up
      rw [POST_parsed b l key cache now apiKey up hp]
      exact afterParse_missCalls key cache now apiKey up hlk hk
    · intro content hcon
      rw [POST_parsed b l key cache now apiKey (.ok content) hp]
      exact afterParse_missOk key cache now apiKey content hlk hk hcon
  · intro raw cache now apiKey up data ts h2 hc hf
    exact GET_hit raw cache now apiKey up data h2
      (cacheLookup_fresh (Suggest.scacheGet cache (toLowerStr (jsTrim raw))) now
        Suggest.CACHE_TTL data ts hc hf)
  · intro raw cache now apiKey up data ts h2 hc hstale hk
    exact GET_missCalls raw cache now apiKey up h2
      (cacheLookup_stale (Suggest.scacheGet cache (toLowerStr (jsTrim raw))) now
        Suggest.CACHE_TTL data ts hc (Nat.not_lt.mpr hstale)) hk

/-- Witness for C1 at a concrete input: a weather request for Austin, TX
whose cache holds a 1 ms old entry is answered from the cache with
`cached = true` and zero upstream calls, even with no credential. -/
theorem cache_ttl_semantics_witness :
    Weather.POST (some ⟨some "Austin", some "TX", none⟩)
        (wcacheSet wcacheEmpty "austin-TX" ("R", 0)) 1 none .netError =
      ({ status := 200, report := some "R", cached := some true },
       wcacheSet wcacheEmpty "austin-TX" ("R", 0), 0) :=
  cache_ttl_semantics.2.2.1 ⟨some "Austin", some "TX", none⟩ "Austin, TX" "austin-TX"
    (wcacheSet wcacheEmpty "austin-TX" ("R", 0)) 1 none .netError "R" 0
    (by decide) (by decide) (by decide)

/-- C9: if the weather cache holds a fresh entry for a request's key, the
endpoint returns the cached report with `cached = true` even when the
upstream API credential is absent or set to the placeholder value; and the
500 configuration-error response is reachable only on a cache miss (absent
or stale entry), because the credential check is performed after the cache
lookup. -/
theorem config_error_only_on_miss :
    (∀ b l key cache now apiKey up data ts,
      Weather.parseBody b = some (l, key) →
      wcacheGet cache key = some (data, ts) →
      now - ts < Weather.CACHE_TTL →
      validKey apiKey = false →
      Weather.POST (some b) cache now apiKey up =
        ({ status := 200, report := some data, cached := some true }, cache, 0)) ∧
    (∀ body cache now apiKey up,
      (Weather.POST body cache now apiKey up).1 = Weather.configErrResp →
      ∃ b l key, body = some b ∧ Weather.parseBody b = some (l, key) ∧
        cacheLookup (wcacheGet cache key) now Weather.CACHE_TTL = none ∧
        validKey apiKey = false) := by
  constructor
  · intro b l key cache now apiKey up data ts hp hc hf _hk
    rw [POST_parsed b l key cache now apiKey up hp]
    exact afterParse_hit key cache now apiKey up data
      (cacheLookup_fresh (wcacheGet cache key) now Weather.CACHE_TTL data ts hc hf)
  · intro body cache now apiKey up h
    cases body with
    | none => simp [Weather.POST, Weather.genericErrResp, Weather.configErrResp] at h
    | some b =>
      cases hp : Weather.parseBody b with
      | none =>
        exfalso
        have hv : Weather.POST (some b) cache now apiKey up = (Weather.valErrResp, cache, 0) := by
          simp [Weather.POST, hp]
        rw [hv] at h
        simp [Weather.valErrResp, Weather.configErrResp] at h
      | some lk =>
        obtain ⟨l, key⟩ := lk
        rw [POST_parsed b l key cache now apiKey up hp] at h
        refine ⟨b, l, key, rfl, hp, ?_⟩
        cases hlk : cacheLookup (wcacheGet cache key) now Weather.CACHE_TTL with
        | some data =>
          exfalso
          rw [afterParse_hit key cache now apiKey up data hlk] at h
          simp [Weather.configErrResp] at h
        | none =>
          cases hk : validKey apiKey with
          | false => exact ⟨rfl, rfl⟩
          | true =>
            exfalso
            cases up with
            | ok content =>
              by_cases hcon : content = ""
              · subst hcon
                rw [afterParse_missOkEmpty key cache now apiKey hlk hk] at h
                simp [Weather.noDataResp, Weather.configErrResp] at h
              · rw [afterParse_missOk key cache now apiKey content hlk hk hcon] at h
                simp [Weather.configErrResp] at h
            | httpError s =>
              rw [afterParse_missHttp key cache now apiKey s hlk hk] at h
              simp [Weather.upstreamErrResp, Weather.configErrResp] at h
            | timeout =>
              rw [afterParse_missTimeout key cache now apiKey hlk hk] at h
              simp [Weather.timeoutResp, Weather.configErrResp] at h
            | netError =>
              rw [afterParse_missNet key cache now apiKey hlk hk] at h
              simp [Weather.genericErrResp, Weather.configErrResp] at h

/-- Witness for C9 at a concrete input: with no credential configured at
all, a fresh cached entry for Austin, TX is still served with
`cached = true`. -/
theorem config_error_only_on_miss_witness :
    Weather.POST (some ⟨some "Austin", some "TX", none⟩)
        (wcacheSet wcacheEmpty "austin-TX" ("S", 5)) 6 (some "your_openrouter_api_key_here")
        .timeout =
      ({ status := 200, report := some "S", cached := some true },
       wcacheSet wcacheEmpty "austin-TX" ("S", 5), 0) :=
  config_error_only_on_miss.1 ⟨some "Austin", some "TX", none⟩ "Austin, TX" "austin-TX"
    (wcacheSet wcacheEmpty "austin-TX" ("S", 5)) 6 (some "your_openrouter_api_key_here")
    .timeout "S" 5 (by decide) (by decide) (by decide) (by decide)

theorem afterParse_status (key : String) (cache : WCache) (now : Nat)
    (apiKey : Option String) (up : Upstream) :
    (Weather.afterParse key cache now apiKey up).1.status = 200 ∨
    (Weather.afterParse key cache now apiKey up).1.status = 500 ∨
    (Weather.afterParse key cache now apiKey up).1.status = 502 ∨
    (Weather.afterParse key cache now apiKey up).1.status = 504 := by
  cases hlk : cacheLookup (wcacheGet cache key) now Weather.CACHE_TTL with
  | some data =>
    rw [afterParse_hit key cache now apiKey up data hlk]
    left
    rfl
  | none =>
    cases hk : validKey apiKey with
    | false =>
      rw [afterParse_missBadKey key cache now apiKey up hlk hk]
      right; left; rfl
    | true =>
      cases up with
      | ok content =>
        by_cases hcon : content = ""
        · subst hcon
          rw [afterParse_missOkEmpty key cache now apiKey hlk hk]
          right; right; left; rfl
        · rw [afterParse_missOk key cache now apiKey content hlk hk hcon]
          left; rfl
      | httpError s =>
        rw [afterParse_missHttp key cache now apiKey s hlk hk]
        right; right; left; rfl
      | timeout =>
        rw [afterParse_missTimeout key cache now apiKey hlk hk]
        right; right; right; rfl
      | netError =>
        rw [afterParse_missNet key cache now apiKey hlk hk]
        right; left; rfl

theorem afterParse_calls (key : String) (cache : WCache) (now : Nat)
    (apiKey : Option String) (up : Upstream) :
    (Weather.afterParse key cache now apiKey up).2.2 ≤ 1 := by
  cases hlk : cacheLookup (wcacheGet cache key) now Weather.CACHE_TTL with
  | some data =>
    rw [afterParse_hit key cache now apiKey up data hlk]
    exact Nat.zero_le 1
  | none =>
    cases hk : validKey apiKey with
    | false =>
      rw [afterParse_missBadKey key cache now apiKey up hlk hk]
      exact Nat.zero_le 1
    | true =>
      rw [afterParse_missCalls key cache now apiKey up hlk hk]

/-- C2 counterexample: the body `{city: "Denver", state: "CO", zip: "abc"}`
is accepted by the weather endpoint (status 200, not a 400 validation
rejection) although its present `zip` field does not match `^\d{5}$`:
`cityStateSchema` declares `zip` as `z.string().optional()` with no format
check, so the claim that every accepted body has a 5-digit zip is false. -/
theorem weather_zip_unvalidated_counterexample :
    (Weather.POST (some ⟨some "Denver", some "CO", some "abc"⟩) wcacheEmpty 0
        (some "k") (.ok "R")).1.status = 200 ∧
    (⟨some "Denver", some "CO", some "abc"⟩ : Body).zip = some "abc" ∧
    isZip5 "abc" = false := by
  decide

/-- C2 (amended): a request body is rejected with the 400 validation error
exactly when schema validation fails; every accepted body has a state that,
after upper-casing, is one of the 51 recognized codes whenever it is parsed
in city+state mode, and a zip matching `^\d{5}$` whenever it is parsed in
zip-only mode (in city+state mode a present zip is accepted unvalidated);
a state code outside the set, such as `"ZZ"` in any letter casing, is
rejected in city+state mode. -/
theorem weather_acceptance_invariant :
    (∀ b cache now apiKey up,
      ((Weather.POST (some b) cache now apiKey up).1.status = 400 ↔
        Weather.parseBody b = none)) ∧
    (∀ b l k, Weather.parseBody b = some (l, k) →
      (truthy b.zip && !truthy b.city) = true →
      ∃ z, b.zip = some z ∧ isZip5 z = true) ∧
    (∀ b l k, Weather.parseBody b = some (l, k) →
      (truthy b.zip && !truthy b.city) = false →
      ∃ c s, b.city = some c ∧ b.state = some s ∧ toUpperStr s ∈ US_STATES) ∧
    (∀ b s, b.state = some s → toUpperStr s = "ZZ" →
      (truthy b.zip && !truthy b.city) = false →
      Weather.parseBody b = none) := by
  refine ⟨?_, ?_, ?_, ?_⟩
  · intro b cache now apiKey up
    constructor
    · intro h400
      cases hp : Weather.parseBody b with
      | none => rfl
      | some lk =>
        exfalso
        obtain ⟨l, key⟩ := lk
        rw [POST_parsed b l key cache now apiKey up hp] at h400
        rcases afterParse_status key cache now apiKey up with h | h | h | h <;> omega
    · intro hp
      simp [Weather.POST, hp, Weather.valErrResp]
  · intro b l k hp hcond
    unfold Weather.parseBody at hp
    rw [if_pos hcond] at hp
    cases hz : b.zip with
    | none =>
      exfalso
      rw [hz] at hcond
      simp [truthy] at hcond
    | some z =>
      rw [hz] at hp
      cases h5 : isZip5 z with
      | true => exact ⟨z, rfl, h5⟩
      | false =>
        exfalso
        have hnone : Weather.parseZipOnly (some z) = none := by
          simp [Weather.parseZipOnly, h5]
        rw [hnone] at hp
        exact Option.noConfusion hp
  · intro b l k hp hcond
    unfold Weather.parseBody at hp
    rw [if_neg (by rw [hcond]; exact Bool.false_ne_true)] at hp
    cases hc : b.city with
    | none =>
      exfalso
      rw [hc] at hp
      cases hs : b.state <;> rw [hs] at hp <;> exact Option.noConfusion hp
    | some c =>
      cases hs : b.state with
      | none =>
        exfalso
        rw [hc, hs] at hp
        exact Option.noConfusion hp
      | some s =>
        rw [hc, hs] at hp
        have hp2 : Weather.parseCityState c s b.zip = some (l, k) := hp
        unfold Weather.parseCityState at hp2
        split at hp2
        · rename_i hlen
          split at hp2
          · rename_i hmem
            exact ⟨c, s, rfl, rfl, hmem⟩
          · exact Option.noConfusion hp2
        · exact Option.noConfusion hp2
  · intro b s hs hZZ hcond
    have hnot : ¬(("ZZ" : String) ∈ US_STATES) := by decide
    unfold Weather.parseBody
    rw [if_neg (by rw [hcond]; exact Bool.false_ne_true)]
    cases hc : b.city with
    | none => rw [hs]
    | some c =>
      rw [hs]
      show Weather.parseCityState c s b.zip = none
      unfold Weather.parseCityState
      rw [hZZ]
      rw [if_neg hnot]
      split <;> rfl

/-- Witness for C2 at a concrete input: the state `"zz"` (lower case) fails
validation and the endpoint answers 400. -/
theorem weather_acceptance_invariant_witness :
    Weather.parseBody ⟨some "Denver", some "zz", none⟩ = none ∧
    (Weather.POST (some ⟨some "Denver", some "zz", none⟩) wcacheEmpty 0 (some "k")
        (.ok "R")).1.status = 400 := by
  constructor
  · exact weather_acceptance_invariant.2.2.2 ⟨some "Denver", some "zz", none⟩ "zz"
      rfl (by decide) (by decide)
  · exact (weather_acceptance_invariant.1 ⟨some "Denver", some "zz", none⟩ wcacheEmpty 0
      (some "k") (.ok "R")).mpr (by decide)

/-- C3: the weather endpoint maps each failure class to its status code:
request-body validation failure gives 400; missing or placeholder upstream
credential gives 500 with a descriptive message; an upstream non-2xx
response gives 502; an upstream timeout gives 504; any other exception
(including an unparseable request body) gives the generic 500.  Every
request produces exactly one response, whose status is one of 200, 400, 500,
502, 504, and at most one upstream call is performed (no retry). -/
theorem weather_error_mapping :
    (∀ b cache now apiKey up, Weather.parseBody b = none →
      Weather.POST (some b) cache now apiKey up = (Weather.valErrResp, cache, 0) ∧
      Weather.valErrResp.status = 400) ∧
    (∀ cache now apiKey up,
      Weather.POST none cache now apiKey up = (Weather.genericErrResp, cache, 0) ∧
      Weather.genericErrResp.status = 500) ∧
    (∀ b l key cache now apiKey up, Weather.parseBody b = some (l, key) →
      cacheLookup (wcacheGet cache key) now Weather.CACHE_TTL = none →
      validKey apiKey = false →
      Weather.POST (some b) cache now apiKey up = (Weather.configErrResp, cache, 0) ∧
      Weather.configErrResp.status = 500 ∧
      Weather.configErrResp.error =
        some "OpenRouter API key not configured. Add OPENROUTER_API_KEY to your environment variables.") ∧
    (∀ b l key cache now apiKey s, Weather.parseBody b = some (l, key) →
      cacheLookup (wcacheGet cache key) now Weather.CACHE_TTL = none →
      validKey apiKey = true →
      Weather.POST (some b) cache now apiKey (.httpError s) =
        (Weather.upstreamErrResp s, cache, 1) ∧
      (Weather.upstreamErrResp s).status = 502) ∧
    (∀ b l key cache now apiKey, Weather.parseBody b = some (l, key) →
      cacheLookup (wcacheGet cache key) now Weather.CACHE_TTL = none →
      validKey apiKey = true →
      Weather.POST (some b) cache now apiKey .timeout = (Weather.timeoutResp, cache, 1) ∧
      Weather.timeoutResp.status = 504) ∧
    (∀ b l key cache now apiKey, Weather.parseBody b = some (l, key) →
      cacheLookup (wcacheGet cache key) now Weather.CACHE_TTL = none →
      validKey apiKey = true →
      Weather.POST (some b) cache now apiKey .netError = (Weather.genericErrResp, cache, 1) ∧
      Weather.genericErrResp.status = 500) ∧
    (∀ body cache now apiKey up,
      ((Weather.POST body cache now apiKey up).1.status = 200 ∨
       (Weather.POST body cache now apiKey up).1.status = 400 ∨
       (Weather.POST body cache now apiKey up).1.status = 500 ∨
       (Weather.POST body cache now apiKey up).1.status = 502 ∨
       (Weather.POST body cache now apiKey up).1.status = 504) ∧
      (Weather.POST body cache now apiKey up).2.2 ≤ 1) := by
  refine ⟨?_, ?_, ?_, ?_, ?_, ?_, ?_⟩
  · intro b cache now apiKey up hp
    exact ⟨by simp [Weather.POST, hp], rfl⟩
  · intro cache now apiKey up
    exact ⟨rfl, rfl⟩
  · intro b l key cache now apiKey up hp hlk hk
    refine ⟨?_, rfl, rfl⟩
    rw [POST_parsed b l key cache now apiKey up hp]
    exact afterParse_missBadKey key cache now apiKey up hlk hk
  · intro b l key cache now apiKey s hp hlk hk
    refine ⟨?_, rfl⟩
    rw [POST_parsed b l key cache now apiKey (.httpError s) hp]
    exact afterParse_missHttp key cache now apiKey s hlk hk
  · intro b l key cache now apiKey hp hlk hk
    refine ⟨?_, rfl⟩
    rw [POST_parsed b l key cache now apiKey .timeout hp]
    exact afterParse_missTimeout key cache now apiKey hlk hk
  · intro b l key cache now apiKey hp hlk hk
    refine ⟨?_, rfl⟩
    rw [POST_parsed b l key cache now apiKey .netError hp]
    exact afterParse_missNet key cache now apiKey hlk hk
  · intro body cache now apiKey up
    cases body with
    | none => exact ⟨Or.inr (Or.inr (Or.inl rfl)), Nat.zero_le 1⟩
    | some b =>
      cases hp : Weather.parseBody b with
      | none =>
        have hv : Weather.POST (some b) cache now apiKey up = (Weather.valErrResp, cache, 0) := by
          simp [Weather.POST, hp]
        rw [hv]
        exact ⟨Or.inr (Or.inl rfl), Nat.zero_le 1⟩
      | some lk =>
        obtain ⟨l, key⟩ := lk
        rw [POST_parsed b l key cache now apiKey up hp]
        constructor
        · rcases afterParse_status key cache now apiKey up with h | h | h | h
          · exact Or.inl h
          · exact Or.inr (Or.inr (Or.inl h))
          · exact Or.inr (Or.inr (Or.inr (Or.inl h)))
          · exact Or.inr (Or.inr (Or.inr (Or.inr h)))
        · exact afterParse_calls key cache now apiKey up

/-- Witness for C3 at a concrete input: an upstream timeout for a valid
Austin, TX request on an empty cache is answered with the 504 response and
exactly one upstream call. -/
theorem weather_error_mapping_witness :
    Weather.POST (some ⟨some "Austin", some "TX", none⟩) wcacheEmpty 0 (some "k")
        .timeout = (Weather.timeoutResp, wcacheEmpty, 1) ∧
    Weather.timeoutResp.status = 504 :=
  weather_error_mapping.2.2.2.2.1 ⟨some "Austin", some "TX", none⟩ "Austin, TX"
    "austin-TX" wcacheEmpty 0 (some "k") (by decide) (by decide) (by decide)

theorem POST2_parsed (b : Body) (key : String) (cache : WCache) (now : Nat)
    (apiKey : Option String) (up : Upstream)
    (hp : Weather2.parseBody b = some key) :
    Weather2.POST (some b) cache now apiKey up =
      Weather2.afterParse key cache now apiKey up := by
  simp [Weather2.POST, hp]

theorem afterParse_agree (key : String) (cache : WCache) (now : Nat)
    (apiKey : Option String) (up : Upstream) :
    Weather2.afterParse key cache now apiKey up =
      Weather.afterParse key cache now apiKey up := rfl

theorem parse_agree (b : Body) (hz : truthy b.zip = false) :
    Option.map Prod.snd (Weather.parseBody b) = Weather2.parseBody b := by
  obtain ⟨bc, bs, bz⟩ := b
  have hz2 : truthy bz = false := hz
  unfold Weather.parseBody Weather2.parseBody
  have hcond : (truthy bz && !truthy bc) = false := by rw [hz2]; rfl
  rw [if_neg (by rw [hcond]; exact Bool.false_ne_true)]
  cases bc with
  | none => cases bs <;> rfl
  | some c =>
    cases bs with
    | none => rfl
    | some s =>
      show Option.map Prod.snd (Weather.parseCityState c s bz) = _
      unfold Weather.parseCityState
      have hnotz : ¬(truthy bz = true) := by rw [hz2]; exact Bool.false_ne_true
      rw [if_neg hnotz, if_neg hnotz, String.append_empty]
      by_cases hlen : (1 ≤ c.length && c.length ≤ 100) = true
      · simp only [if_pos hlen]
        by_cases hmem : toUpperStr s ∈ US_STATES
        · simp only [if_pos hmem]
          rfl
        · simp only [if_neg hmem]
          rfl
      · simp only [if_neg hlen]
        rfl

/-- C8 counterexample: the two weather-endpoint implementations do not
accept the same set of request bodies — part_000 accepts the zip-only body
`{zip: "80202"}` (status 200) while part_001, whose `requestSchema` has no
zip support, rejects it with a 400 validation error; their validation-error
message texts also differ. -/
theorem weather_endpoints_divergence :
    (Weather.POST (some ⟨none, none, some "80202"⟩) wcacheEmpty 0 (some "k")
        (.ok "R")).1.status = 200 ∧
    (Weather2.POST (some ⟨none, none, some "80202"⟩) wcacheEmpty 0 (some "k")
        (.ok "R")).1.status = 400 ∧
    ¬(Weather.valErrResp = Weather2.valErrResp) := by
  decide

/-- C8 (amended): the two weather-endpoint implementations are behaviourally
equivalent — same acceptance, same cache keys, same status codes, the same
report, cached flag, resulting cache and upstream-call count, and the same
error text outside the 400 case — on request bodies without a truthy zip
field; they differ in prompt text, model identifier, and the 400
validation-error message, and part_001 has no zip-only mode. -/
theorem weather_endpoints_equivalent_nozip :
    ∀ b cache now apiKey up, truthy b.zip = false →
      ((Weather.POST (some b) cache now apiKey up).1.status =
        (Weather2.POST (some b) cache now apiKey up).1.status) ∧
      ((Weather.POST (some b) cache now apiKey up).1.report =
        (Weather2.POST (some b) cache now apiKey up).1.report) ∧
      ((Weather.POST (some b) cache now apiKey up).1.cached =
        (Weather2.POST (some b) cache now apiKey up).1.cached) ∧
      ((Weather.POST (some b) cache now apiKey up).2 =
        (Weather2.POST (some b) cache now apiKey up).2) ∧
      ((Weather.POST (some b) cache now apiKey up).1.status ≠ 400 →
        (Weather.POST (some b) cache now apiKey up).1 =
          (Weather2.POST (some b) cache now apiKey up).1) := by
  intro b cache now apiKey up hz
  have hagree := parse_agree b hz
  cases h2 : Weather2.parseBody b with
  | none =>
    have hw : Weather.parseBody b = none := by
      rw [h2] at hagree
      exact Option.map_eq_none'.mp hagree
    have e1 : Weather.POST (some b) cache now apiKey up = (Weather.valErrResp, cache, 0) := by
      simp [Weather.POST, hw]
    have e2 : Weather2.POST (some b) cache now apiKey up = (Weather2.valErrResp, cache, 0) := by
      simp [Weather2.POST, h2]
    rw [e1, e2]
    exact ⟨rfl, rfl, rfl, rfl, fun h400 => absurd rfl h400⟩
  | some key =>
    rw [h2] at hagree
    cases hw : Weather.parseBody b with
    | none =>
      exfalso
      rw [hw] at hagree
      exact Option.noConfusion hagree
    | some lk =>
      obtain ⟨l, k⟩ := lk
      rw [hw] at hagree
      have hagree2 : some k = some key := hagree
      have hk : k = key := Option.some.inj hagree2
      subst hk
      rw [POST_parsed b l k cache now apiKey up hw,
        POST2_parsed b k cache now apiKey up h2, afterParse_agree]
      exact ⟨rfl, rfl, rfl, rfl, fun _ => rfl⟩

/-- Witness for C8 at a concrete input: a no-zip Denver, CO request gets the
same status from both endpoint implementations. -/
theorem weather_endpoints_equivalent_nozip_witness :
    (Weather.POST (some ⟨some "Denver", some "CO", none⟩) wcacheEmpty 0 none
        .timeout).1.status =
      (Weather2.POST (some ⟨some "Denver", some "CO", none⟩) wcacheEmpty 0 none
        .timeout).1.status :=
  (weather_endpoints_equivalent_nozip ⟨some "Denver", some "CO", none⟩ wcacheEmpty 0
    none .timeout (by decide)).1

theorem matchStateZip_cons (a b : Char) (rest : List Char) :
    Page.matchStateZip (a :: b :: rest) =
      (if isUpperAlpha a && isUpperAlpha b then
        if decide (rest.takeWhile jsSpace ≠ []) &&
            decide ((rest.dropWhile jsSpace).length = 5) &&
            (rest.dropWhile jsSpace).all isDigitCh
        then some (⟨[a, b]⟩, ⟨rest.dropWhile jsSpace⟩)
        else none
      else none) := rfl

theorem matchStateZip_spec (cs : List Char) (st z : String)
    (h : Page.matchStateZip cs = some (st, z)) :
    st.length = 2 ∧ st.data.all isUpperAlpha = true ∧ isZip5 z = true := by
  cases cs with
  | nil => exact Option.noConfusion h
  | cons a t =>
    cases t with
    | nil => exact Option.noConfusion h
    | cons b rest =>
      rw [matchStateZip_cons] at h
      split at h
      · rename_i hab
        split at h
        · rename_i hcond
          rw [Option.some.injEq, Prod.mk.injEq] at h
          obtain ⟨hst, hz⟩ := h
          subst hst
          subst hz
          rw [Bool.and_eq_true, Bool.and_eq_true] at hcond
          rw [Bool.and_eq_true] at hab
          refine ⟨rfl, ?_, ?_⟩
          · show (isUpperAlpha a && (isUpperAlpha b && true)) = true
            rw [hab.1, hab.2]
            rfl
          · show (decide ((rest.dropWhile jsSpace).length = 5) &&
              (rest.dropWhile jsSpace).all isDigitCh) = true
            rw [Bool.and_eq_true]
            exact ⟨hcond.1.2, hcond.2⟩
        · exact Option.noConfusion h
      · exact Option.noConfusion h

/-- C7 counterexample: the bare-state rule of `handleSubmit` checks only
that the part after the comma has length 2 (`afterComma.length === 2`), not
that it is two letters: `"Denver, 12"` parses to city `"Denver"`, state
`"12"` instead of failing with the `InvalidLocation` error as the claim's
"exactly 2 letters" rule would require. -/
theorem location_parsing_counterexample :
    Page.handleSubmitParse "Denver, 12" = .cityState "Denver" "12" ∧
    ¬(Page.handleSubmitParse "Denver, 12" = .invalid) := by
  decide

/-- C7 (amended): parsing of free-text location input follows the ordered
rules: a trimmed input of exactly 5 digits is zip-only; otherwise the input
is split on the last comma (which must not be at position 0; with no comma
parsing fails); if the part after the comma, trimmed and upper-cased, is a
2-letter code followed by whitespace and 5 digits, the state and zip are
extracted separately; else if that part is exactly 2 characters long (not
necessarily letters) it is taken as the state with no zip; otherwise parsing
fails with the `InvalidLocation` error.  `"80202"`, `"Denver, CO"`,
`"Denver, CO 80202"` and `"gibberish"` behave as the claim states. -/
theorem location_parsing_rules :
    (Page.handleSubmitParse "80202" = .zipOnly "80202") ∧
    (Page.handleSubmitParse "Denver, CO" = .cityState "Denver" "CO") ∧
    (Page.handleSubmitParse "Denver, CO 80202" = .cityStateZip "Denver" "CO" "80202") ∧
    (Page.handleSubmitParse "gibberish" = .invalid) ∧
    (∀ s, isZip5 (jsTrim s) = true → Page.handleSubmitParse s = .zipOnly (jsTrim s)) ∧
    (∀ s, isZip5 (jsTrim s) = false → Page.lastCommaIdx (jsTrim s).data = none →
      Page.handleSubmitParse s = .invalid) ∧
    (∀ s c st z, Page.handleSubmitParse s = .cityStateZip c st z →
      st.length = 2 ∧ st.data.all isUpperAlpha = true ∧ isZip5 z = true) ∧
    (∀ s c st, Page.handleSubmitParse s = .cityState c st →
      st.length = 2 ∧ 0 < c.length) := by
  refine ⟨by decide, by decide, by decide, by decide, ?_, ?_, ?_, ?_⟩
  · intro s h
    simp [Page.handleSubmitParse, h]
  · intro s h hnone
    simp [Page.handleSubmitParse, h, hnone]
  · intro s c st z hp
    simp only [Page.handleSubmitParse] at hp
    split at hp
    · exact Page.ParseResult.noConfusion hp
    · split at hp
      · split at hp
        · split at hp
          · rename_i hm
            rw [Page.ParseResult.cityStateZip.injEq] at hp
            obtain ⟨h1, h2, h3⟩ := hp
            rw [h2, h3] at hm
            exact matchStateZip_spec _ st z hm
          · split at hp
            · exact Page.ParseResult.noConfusion hp
            · exact Page.ParseResult.noConfusion hp
        · exact Page.ParseResult.noConfusion hp
      · exact Page.ParseResult.noConfusion hp
  · intro s c st hp
    simp only [Page.handleSubmitParse] at hp
    split at hp
    · exact Page.ParseResult.noConfusion hp
    · split at hp
      · split at hp
        · split at hp
          · exact Page.ParseResult.noConfusion hp
          · split at hp
            · rename_i hcond
              rw [Page.ParseResult.cityState.injEq] at hp
              obtain ⟨h1, h2⟩ := hp
              rw [Bool.and_eq_true] at hcond
              rw [← h1, ← h2]
              exact ⟨of_decide_eq_true hcond.2, of_decide_eq_true hcond.1⟩
            · exact Page.ParseResult.noConfusion hp
        · exact Page.ParseResult.noConfusion hp
      · exact Page.ParseResult.noConfusion hp

/-- Witness for C7 at a concrete input: applying the zip-only rule to the
padded input `" 80202 "`. -/
theorem location_parsing_rules_witness :
    Page.handleSubmitParse " 80202 " = .zipOnly (jsTrim " 80202 ") :=
  location_parsing_rules.2.2.2.2.1 " 80202 " (by decide)

theorem filterSuggestions_all (items : List (Option String)) :
    (Suggest.filterSuggestions items).all Suggest.shapeOk = true := by
  unfold Suggest.filterSuggestions
  rw [List.all_eq_true]
  intro s hs
  have hs2 := List.mem_of_mem_take hs
  rw [List.mem_filterMap] at hs2
  obtain ⟨it, _, hit⟩ := hs2
  cases it with
  | none => exact Option.noConfusion hit
  | some t =>
    have hit2 : (if Suggest.shapeOk t = true then some t else none) = some s := hit
    by_cases hok : Suggest.shapeOk t = true
    · rw [if_pos hok] at hit2
      rw [← Option.some.inj hit2]
      exact hok
    · rw [if_neg hok] at hit2
      exact Option.noConfusion hit2

theorem filterSuggestions_len (items : List (Option String)) :
    (Suggest.filterSuggestions items).length ≤ 6 :=
  List.length_take_le 6 _

/-- C5: for every upstream response handled by the suggestion endpoint (a
request that reaches past the cache, i.e. whose lookup is a miss), the
returned suggestions list contains only strings matching
`^.+,\s*[A-Z]{2}(\s+\d{5})?$` and never has more than 6 entries — parsed
entries not of the required shape are excluded by the filter, and every
failure path returns the empty list, which satisfies both bounds. -/
theorem suggestions_shape_filtered :
    ∀ raw cache now apiKey up,
      cacheLookup (Suggest.scacheGet cache (toLowerStr (jsTrim raw))) now
        Suggest.CACHE_TTL = none →
      ((Suggest.GET (some raw) cache now apiKey up).1.suggestions.all
        Suggest.shapeOk = true ∧
       (Suggest.GET (some raw) cache now apiKey up).1.suggestions.length ≤ 6) := by
  intro raw cache now apiKey up hlk
  by_cases hshort : (jsTrim raw).length < 2
  · rw [GET_short raw cache now apiKey up hshort]
    exact ⟨rfl, Nat.zero_le 6⟩
  · cases hk : validKey apiKey with
    | false =>
      rw [GET_missBadKey raw cache now apiKey up hshort hlk hk]
      exact ⟨rfl, Nat.zero_le 6⟩
    | true =>
      cases up with
      | arr items =>
        rw [GET_missArr raw cache now apiKey items hshort hlk hk]
        exact ⟨filterSuggestions_all items, filterSuggestions_len items⟩
      | nonArray =>
        rw [GET_missFailure raw cache now apiKey _ hshort hlk hk (fun i hx => by cases hx)]
        exact ⟨rfl, Nat.zero_le 6⟩
      | parseFail =>
        rw [GET_missFailure raw cache now apiKey _ hshort hlk hk (fun i hx => by cases hx)]
        exact ⟨rfl, Nat.zero_le 6⟩
      | noContent =>
        rw [GET_missFailure raw cache now apiKey _ hshort hlk hk (fun i hx => by cases hx)]
        exact ⟨rfl, Nat.zero_le 6⟩
      | httpError s =>
        rw [GET_missFailure raw cache now apiKey _ hshort hlk hk (fun i hx => by cases hx)]
        exact ⟨rfl, Nat.zero_le 6⟩
      | timeout =>
        rw [GET_missFailure raw cache now apiKey _ hshort hlk hk (fun i hx => by cases hx)]
        exact ⟨rfl, Nat.zero_le 6⟩
      | netError =>
        rw [GET_missFailure raw cache now apiKey _ hshort hlk hk (fun i hx => by cases hx)]
        exact ⟨rfl, Nat.zero_le 6⟩

/-- Witness for C5 at a concrete input: a miss on the empty cache for query
`"de"` with an upstream array containing one well-shaped, one ill-shaped and
one non-string entry yields a list that passes the shape filter and the
length bound. -/
theorem suggestions_shape_filtered_witness :
    (Suggest.GET (some "de") Suggest.scacheEmpty 0 (some "k")
        (.arr [some "Denver, CO", some "bad", none])).1.suggestions.all
      Suggest.shapeOk = true ∧
    (Suggest.GET (some "de") Suggest.scacheEmpty 0 (some "k")
        (.arr [some "Denver, CO", some "bad", none])).1.suggestions.length ≤ 6 :=
  suggestions_shape_filtered "de" Suggest.scacheEmpty 0 (some "k")
    (.arr [some "Denver, CO", some "bad", none]) (by decide)

/-- C6: the `GET /api/suggest` handler returns status 200 with a
`{suggestions: string[]}` body for every input and every failure mode —
missing query, query shorter than 2 characters, missing credential, and
every upstream failure (non-2xx, timeout, unparseable content, empty
content, non-array content) degrade to the empty list; an error status is
never returned. -/
theorem suggest_always_200 :
    (∀ q cache now apiKey up, (Suggest.GET q cache now apiKey up).1.status = 200) ∧
    (∀ cache now apiKey up, Suggest.GET none cache now apiKey up =
      ({ status := 200, suggestions := [] }, cache, 0)) ∧
    (∀ raw cache now apiKey up, (jsTrim raw).length < 2 →
      Suggest.GET (some raw) cache now apiKey up =
        ({ status := 200, suggestions := [] }, cache, 0)) ∧
    (∀ raw cache now apiKey up,
      cacheLookup (Suggest.scacheGet cache (toLowerStr (jsTrim raw))) now
        Suggest.CACHE_TTL = none →
      validKey apiKey = false →
      Suggest.GET (some raw) cache now apiKey up =
        ({ status := 200, suggestions := [] }, cache, 0)) ∧
    (∀ raw cache now apiKey up, ¬((jsTrim raw).length < 2) →
      cacheLookup (Suggest.scacheGet cache (toLowerStr (jsTrim raw))) now
        Suggest.CACHE_TTL = none →
      validKey apiKey = true →
      (∀ items, up ≠ Suggest.SUpstream.arr items) →
      Suggest.GET (some raw) cache now apiKey up =
        ({ status := 200, suggestions := [] }, cache, 1)) := by
  refine ⟨?_, fun cache now apiKey up => rfl, ?_, ?_, ?_⟩
  · intro q cache now apiKey up
    cases q with
    | none => rfl
    | some raw =>
      by_cases hshort : (jsTrim raw).length < 2
      · rw [GET_short raw cache now apiKey up hshort]
      · cases hlk : cacheLookup (Suggest.scacheGet cache (toLowerStr (jsTrim raw))) now
          Suggest.CACHE_TTL with
        | some data => rw [GET_hit raw cache now apiKey up data hshort hlk]
        | none =>
          cases hk : validKey apiKey with
          | false => rw [GET_missBadKey raw cache now apiKey up hshort hlk hk]
          | true =>
            cases up with
            | arr items => rw [GET_missArr raw cache now apiKey items hshort hlk hk]
            | nonArray =>
              rw [GET_missFailure raw cache now apiKey _ hshort hlk hk
                (fun i hx => by cases hx)]
            | parseFail =>
              rw [GET_missFailure raw cache now apiKey _ hshort hlk hk
                (fun i hx => by cases hx)]
            | noContent =>
              rw [GET_missFailure raw cache now apiKey _ hshort hlk hk
                (fun i hx => by cases hx)]
            | httpError s =>
              rw [GET_missFailure raw cache now apiKey _ hshort hlk hk
                (fun i hx => by cases hx)]
            | timeout =>
              rw [GET_missFailure raw cache now apiKey _ hshort hlk hk
                (fun i hx => by cases hx)]
            | netError =>
              rw [GET_missFailure raw cache now apiKey _ hshort hlk hk
                (fun i hx => by cases hx)]
  · intro raw cache now apiKey up hshort
    exact GET_short raw cache now apiKey up hshort
  · intro raw cache now apiKey up hlk hk
    by_cases hshort : (jsTrim raw).length < 2
    · exact GET_short raw cache now apiKey up hshort
    · exact GET_missBadKey raw cache now apiKey up hshort hlk hk
  · intro raw cache now apiKey up hshort hlk hk hup
    exact GET_missFailure raw cache now apiKey up hshort hlk hk hup

/-- Witness for C6 at a concrete input: an upstream timeout for the query
`"de"` on an empty cache is answered 200 with the empty list. -/
theorem suggest_always_200_witness :
    Suggest.GET (some "de") Suggest.scacheEmpty 0 (some "k") .timeout =
      ({ status := 200, suggestions := [] }, Suggest.scacheEmpty, 1) :=
  suggest_always_200.2.2.2.2 "de" Suggest.scacheEmpty 0 (some "k") .timeout
    (by decide) (by decide) (by decide) (fun i hx => by cases hx)

/-- C10: the suggestion cache is written only on the fully successful path —
an upstream response whose content parses as a JSON array: on any other
upstream outcome the cache is unchanged, and whenever no upstream call is
made (missing/short query, fresh hit, missing credential) the cache is also
unchanged; on a miss with an array response the value written is the
filtered, truncated list, even when that list is empty (in particular, when
every parsed entry fails the shape filter the empty list is written); a
later request for the same query within 24 hours is then answered from the
cache, with that (possibly empty) list and no upstream call. -/
theorem suggest_cache_write_discipline :
    (∀ q cache now apiKey up, (∀ items, up ≠ Suggest.SUpstream.arr items) →
      (Suggest.GET q cache now apiKey up).2.1 = cache) ∧
    (∀ q cache now apiKey up, (Suggest.GET q cache now apiKey up).2.2 = 0 →
      (Suggest.GET q cache now apiKey up).2.1 = cache) ∧
    (∀ raw cache now apiKey items, ¬((jsTrim raw).length < 2) →
      cacheLookup (Suggest.scacheGet cache (toLowerStr (jsTrim raw))) now
        Suggest.CACHE_TTL = none →
      validKey apiKey = true →
      Suggest.GET (some raw) cache now apiKey (.arr items) =
        ({ status := 200, suggestions := Suggest.filterSuggestions items },
         Suggest.scacheSet cache (toLowerStr (jsTrim raw))
           (Suggest.filterSuggestions items, now), 1)) ∧
    (∀ items, (∀ s, some s ∈ items → Suggest.shapeOk s = false) →
      Suggest.filterSuggestions items = []) ∧
    (∀ raw cache now2 apiKey2 up2 data ts, ¬((jsTrim raw).length < 2) →
      Suggest.scacheGet cache (toLowerStr (jsTrim raw)) = some (data, ts) →
      now2 - ts < Suggest.CACHE_TTL →
      Suggest.GET (some raw) cache now2 apiKey2 up2 =
        ({ status := 200, suggestions := data }, cache, 0)) := by
  refine ⟨?_, ?_, ?_, ?_, ?_⟩
  · intro q cache now apiKey up hup
    cases q with
    | none => rfl
    | some raw =>
      by_cases hshort : (jsTrim raw).length < 2
      · rw [GET_short raw cache now apiKey up hshort]
      · cases hlk : cacheLookup (Suggest.scacheGet cache (toLowerStr (jsTrim raw))) now
          Suggest.CACHE_TTL with
        | some data => rw [GET_hit raw cache now apiKey up data hshort hlk]
        | none =>
          cases hk : validKey apiKey with
          | false => rw [GET_missBadKey raw cache now apiKey up hshort hlk hk]
          | true => rw [GET_missFailure raw cache now apiKey up hshort hlk hk hup]
  · intro q cache now apiKey up h0
    cases q with
    | none => rfl
    | some raw =>
      by_cases hshort : (jsTrim raw).length < 2
      · rw [GET_short raw cache now apiKey up hshort]
      · cases hlk : cacheLookup (Suggest.scacheGet cache (toLowerStr (jsTrim raw))) now
          Suggest.CACHE_TTL with
        | some data => rw [GET_hit raw cache now apiKey up data hshort hlk]
        | none =>
          cases hk : validKey apiKey with
          | false => rw [GET_missBadKey raw cache now apiKey up hshort hlk hk]
          | true =>
            exfalso
            rw [GET_missCalls raw cache now apiKey up hshort hlk hk] at h0
            exact one_ne_zero h0
  · intro raw cache now apiKey items hshort hlk hk
    exact GET_missArr raw cache now apiKey items hshort hlk hk
  · intro items hall
    unfold Suggest.filterSuggestions
    have hnil : (items.filterMap (fun it => match it with
        | some s => if Suggest.shapeOk s then some s else none
        | none => none)) = [] := by
      rw [List.filterMap_eq_nil_iff]
      intro a ha
      cases a with
      | none => rfl
      | some s =>
        have h2 : Suggest.shapeOk s = false := hall s ha
        show (if Suggest.shapeOk s = true then some s else none) = none
        rw [if_neg (by rw [h2]; exact Bool.false_ne_true)]
    rw [hnil]
    rfl
  · intro raw cache now2 apiKey2 up2 data ts hshort hget hf
    exact GET_hit raw cache now2 apiKey2 up2 data hshort
      (cacheLookup_fresh (Suggest.scacheGet cache (toLowerStr (jsTrim raw))) now2
        Suggest.CACHE_TTL data ts hget hf)

/-- Witness for C10 at a concrete input: a miss for query `"de"` with an
upstream array whose entries all fail the shape filter caches and returns
the empty list, with one upstream call; the follow-up request 1 ms later is
answered from the cache with the empty list and no upstream call. -/
theorem suggest_cache_write_discipline_witness :
    Suggest.GET (some "de") Suggest.scacheEmpty 0 (some "k") (.arr [some "bad", none]) =
      ({ status := 200, suggestions := [] },
       Suggest.scacheSet Suggest.scacheEmpty "de" ([], 0), 1) ∧
    Suggest.GET (some "de") (Suggest.scacheSet Suggest.scacheEmpty "de" ([], 0)) 1
        none .timeout = ({ status := 200, suggestions := [] },
       Suggest.scacheSet Suggest.scacheEmpty "de" ([], 0), 0) :=
  ⟨suggest_cache_write_discipline.2.2.1 "de" Suggest.scacheEmpty 0 (some "k")
      [some "bad", none] (by decide) (by decide) (by decide),
   suggest_cache_write_discipline.2.2.2.2 "de"
      (Suggest.scacheSet Suggest.scacheEmpty "de" ([], 0)) 1 none .timeout [] 0
      (by decide) (by decide) (by decide)⟩
